import Mathlib

/-!
Verification of the DStat directory-statistics tool (src/dstat.c) against its
natural-language specification. The C program is shallowly embedded: the
global option block `opt`, the tally block `de`, the errno cell and the
linked list of directory paths become an explicit state record `St`;
functions that may call `exit` return `Except (Nat × St) St`, where
`Except.error (code, s)` models process termination with exit status `code`
in observable state `s`. Filesystem contents are an explicit parameter
`FS` (the set of existing directories and the entry stream `readdir`
yields for each). Writes to the log file and to standard output made by
`logError` are tracked as lists of lines; the debug channel (`Dprint`,
compiled out in release builds) and log-write failures are not modelled.
-/

namespace DStat

/-- Errno values used by the program (errno.h). -/
def EPERM : Nat := 1

def ENOENT : Nat := 2

def EIO : Nat := 5

def EINVAL : Nat := 22

/-- Message text of `strerror` for the errno values the program can produce. -/
def strerror (e : Nat) : String :=
  if e = 1 then "Operation not permitted"
  else if e = 2 then "No such file or directory"
  else if e = 5 then "Input/output error"
  else if e = 22 then "Invalid argument"
  else "Undefined error"

/-- Entry-type codes of sys/dirent.h (`d_type` field values). -/
def DT_FIFO : Nat := 1

def DT_CHR : Nat := 2

def DT_DIR : Nat := 4

def DT_BLK : Nat := 6

def DT_REG : Nat := 8

def DT_LNK : Nat := 10

def DT_SOCK : Nat := 12

def DT_WHT : Nat := 14

/-- The nine counters of `struct dir_ent_s` (src/unnamed headers, used as the
global `de` in src/dstat.c). `num_hdr` is always 9 and `fqdp` is carried in
`St` below, so only the counters live here. -/
structure Tally where
  d_fif : Nat := 0
  d_chr : Nat := 0
  d_dir : Nat := 0
  d_blk : Nat := 0
  d_reg : Nat := 0
  d_lnk : Nat := 0
  d_sok : Nat := 0
  d_wht : Nat := 0
  d_unk : Nat := 0
  deriving Repr, DecidableEq

/-- Sum of the nine counters. -/
def tallySum (t : Tally) : Nat :=
  t.d_reg + t.d_dir + t.d_lnk + t.d_blk + t.d_chr + t.d_fif + t.d_sok + t.d_wht + t.d_unk

/-- The switch on `ep->d_type` inside `getDirStats` (src/dstat.c lines
280-299): each recognised code bumps its counter, anything else bumps
`d_unk`. -/
def classifyEntry (t : Tally) (d_type : Nat) : Tally :=
  if d_type = DT_BLK then { t with d_blk := t.d_blk + 1 }
  else if d_type = DT_CHR then { t with d_chr := t.d_chr + 1 }
  else if d_type = DT_DIR then { t with d_dir := t.d_dir + 1 }
  else if d_type = DT_LNK then { t with d_lnk := t.d_lnk + 1 }
  else if d_type = DT_REG then { t with d_reg := t.d_reg + 1 }
  else if d_type = DT_WHT then { t with d_wht := t.d_wht + 1 }
  else if d_type = DT_FIFO then { t with d_fif := t.d_fif + 1 }
  else if d_type = DT_SOCK then { t with d_sok := t.d_sok + 1 }
  else { t with d_unk := t.d_unk + 1 }

/-- The while loop of `getDirStats`: classify every entry of the stream. -/
def scanEntries (es : List Nat) (t : Tally) : Tally :=
  es.foldl (fun acc d => classifyEntry acc d) t

/-- The boolean fields of `struct sel_opts_s` relevant to control flow
(src/dstat.c lines 107-115): continuous update, linear, csv, quiet,
output-file requested, log-file configured. -/
structure Opts where
  upd : Bool := false
  lin : Bool := false
  csv : Bool := false
  qit : Bool := false
  out : Bool := false
  log : Bool := false
  deriving Repr, DecidableEq

/-- One directory entry as `readdir` yields it: a name and a `d_type` code. -/
structure Entry where
  name : String
  d_type : Nat
  deriving Repr, DecidableEq

/-- The filesystem a run observes: the set of existing directories (by
absolute path) and, for each, the exact stream of entries `readdir`
produces, in order. -/
structure FS where
  dirs : List String
  listing : String → List Entry

/-- Test of `dir[0] == '/'` performed by `testDir` via
`strncmp(fc, DFS, 1)` (src/dstat.c lines 217-220). -/
def isAbs (p : String) : Bool :=
  match p.data with
  | [] => false
  | c :: _ => c == '/'

/-- Resolution of a path against the current working directory, as the
kernel would do it for `stat`/`chdir`: absolute paths stand alone and
relative ones are interpreted under the working directory. -/
def resolve (cwd p : String) : String :=
  if isAbs p then p else cwd ++ "/" ++ p

/-- Mutable process state: the `de` counters, the errno cell, the linked
list of accepted paths (`head` lists the stored `fqdp` strings with the
most recently pushed node first, exactly the order every traversal of the
list visits them), the two count fields, the working directory, the
`de.fqdp` holding cell, and the lines written so far to the log file,
standard output and standard error. -/
structure St where
  tally : Tally := {}
  errno : Nat := 0
  head : List String := []
  num_dirs : Nat := 0
  num_dir : Nat := 0
  cwd : String := ""
  fqdp : String := ""
  logLines : List String := []
  stdoutLines : List String := []
  stderrLines : List String := []
  deriving Repr, DecidableEq

/-- Fresh state at program start, in working directory `cwd0`. -/
def initSt (cwd0 : String) : St := { cwd := cwd0 }

/-- Projection of a run result onto the continuing state, if any. -/
def runOk (r : Except (Nat × St) St) : Option St := r.toOption

/-- Projection of a run result onto the exit event, if the run terminated. -/
def runExit (r : Except (Nat × St) St) : Option (Nat × St) :=
  match r with
  | Except.error e => some e
  | Except.ok _ => none

/-- Errno adjustment performed at the top of `logError`
(src/dstat.c line 152): a zero errno is coerced to `EPERM`. -/
def errAdj (e : Nat) : Nat := if e = 0 then EPERM else e

/-- The message line `logError` builds (src/dstat.c lines 151-154):
the caller text, a colon, the `strerror` text of the adjusted errno, and a
newline. -/
def errLine (msg : String) (e : Nat) : String :=
  msg ++ ": " ++ strerror (errAdj e) ++ "\n"

/-- Embeds `logError` (src/dstat.c lines 147-171). With a log file
configured the line is appended there; if the call is fatal or no log file
is configured the line is also printed — by `printf`, hence to standard
output — and the process exits with the adjusted errno. Log writes are
modelled as succeeding (the fprintf-failure branch is not modelled). -/
def logError (o : Opts) (fatal : Bool) (msg : String) (s : St) : Except (Nat × St) St :=
  let e := errAdj s.errno
  let line := errLine msg s.errno
  let s1 := { s with errno := e,
                     logLines := s.logLines ++ (if o.log then [line] else []) }
  if fatal || !o.log then
    Except.error (e, { s1 with stdoutLines := s1.stdoutLines ++ [line] })
  else
    Except.ok s1

/-- Embeds `testDir` (src/dstat.c lines 212-244). A path is accepted iff
its resolution names an existing directory. An accepted absolute path is
stored in `fqdp` as given; an accepted relative path triggers
`chdir(dir)` followed by `getwd`, so the working directory moves to the
resolved path, which is stored. `de.num_dir` counts acceptances. -/
def testDir (fs : FS) (s : St) (dir : String) : Bool × St :=
  let full := resolve s.cwd dir
  if fs.dirs.contains full then
    if isAbs dir then
      (true, { s with fqdp := dir, num_dir := s.num_dir + 1 })
    else
      (true, { s with cwd := full, fqdp := full, num_dir := s.num_dir + 1 })
  else
    (false, s)

/-- Embeds `addDir` (src/dstat.c lines 249-264). On acceptance a new node
holding `fqdp` is pushed at the head of the list and `num_dirs` is
incremented; on rejection errno is defaulted to `ENOENT` and the path is
handed to `logError` as non-fatal. -/
def addDir (fs : FS) (o : Opts) (s : St) (path_arg : String) : Except (Nat × St) St :=
  let r := testDir fs s path_arg
  if r.1 then
    let s1 := r.2
    Except.ok { s1 with head := s1.fqdp :: s1.head, num_dirs := s1.num_dirs + 1 }
  else
    let s1 := r.2
    let s2 := if s1.errno = 0 then { s1 with errno := ENOENT } else s1
    logError o false path_arg s2

/-- Embeds `getDirStats` (src/dstat.c lines 269-307). The statement
`struct dirent *ep = readdir(dp)` consumes and discards the first entry of
the stream before the while loop runs, so only the tail is tallied; entry
names are never compared against "." or "..". On `opendir` failure the
path goes to `logError` as non-fatal (in the source a null `dp` is also
dereferenced by that first `readdir`; the crash is not modelled). -/
def getDirStats (fs : FS) (o : Opts) (s : St) (dir : String) : Except (Nat × St) St :=
  if fs.dirs.contains dir then
    let es := fs.listing dir
    Except.ok { s with tally := scanEntries ((es.drop 1).map (fun e => e.d_type)) s.tally }
  else
    logError o false dir { s with errno := ENOENT }

/-- A walk of the stored path list applying `getDirStats` to every node:
the loop bodies of both `getPaths` (src/dstat.c lines 312-320) and the
continuous branch of `lineOutput` (lines 510-534). -/
def scanList (fs : FS) (o : Opts) : St → List String → Except (Nat × St) St
  | s, [] => Except.ok s
  | s, d :: ds => do
      let s1 ← getDirStats fs o s d
      scanList fs o s1 ds

/-- Embeds `getPaths` (src/dstat.c lines 312-320): scan every stored path. -/
def getPaths (fs : FS) (o : Opts) (s : St) : Except (Nat × St) St :=
  scanList fs o s s.head

/-- The `action` enum of the headers. -/
inductive Action
  | non
  | add
  | rep
  | reg
  | csv
  | prt
  | wrt
  | cnt
  deriving Repr, DecidableEq

/-- Embeds `pl` (src/dstat.c lines 362-376): the pluralisation helper.
A count of exactly 1 selects the singular form, every other count the
plural form; actions other than `add` and `rep` leave the buffer `p`
untouched. -/
def pl (cnt : Int) (p : String) (act : Action) : String :=
  if cnt = 1 then
    if act = Action.add then "" else if act = Action.rep then "y" else p
  else
    if act = Action.add then "s" else if act = Action.rep then "ies" else p

/-- The three output formats. -/
inductive Renderer
  | Linear
  | CSV
  | Block
  deriving Repr, DecidableEq

/-- The stdout format choice of `displayOutput` (src/dstat.c lines
554-565), with the exact condition structure of the source. -/
def stdoutChoice (o : Opts) : Renderer :=
  if (o.upd || (o.lin && !o.csv)) || (o.lin && o.csv && o.out) then Renderer.Linear
  else if o.csv && !o.lin && !o.out then Renderer.CSV
  else Renderer.Block

/-- The file format choice of `displayOutput` (src/dstat.c lines 568-574):
when an output file was requested it receives CSV if the csv flag is set
and Block otherwise, independent of the stdout choice. -/
def fileChoice (o : Opts) : Option Renderer :=
  if o.out then some (if o.csv then Renderer.CSV else Renderer.Block) else none

/-- State effect of `displayOutput` (src/dstat.c lines 551-577): only the
continuous branch of `lineOutput` touches the state, by re-running
`getDirStats` over the stored list; the other renderers and the file
write only format existing data (file writes are modelled as
succeeding). -/
def displayOutput (fs : FS) (o : Opts) (s : St) : Except (Nat × St) St :=
  match stdoutChoice o with
  | Renderer.Linear => if o.upd then scanList fs o s s.head else Except.ok s
  | Renderer.CSV => Except.ok s
  | Renderer.Block => Except.ok s

/-- The fully written out category names (`STAT_CSV` of the headers). -/
def STAT_CSV : List String :=
  ["Regular", "Directory", "Link", "Block Special", "Character Special",
   "FIFO", "Socket", "White Out", "Unknown"]

/-- The `values[]` array built by `csvOutput` and `lineOutput`: the nine
counters in display order. -/
def tallyValues (t : Tally) : List Nat :=
  [t.d_reg, t.d_dir, t.d_lnk, t.d_blk, t.d_chr, t.d_fif, t.d_sok, t.d_wht, t.d_unk]

/-- A row as the `asprintf` loops of `csvOutput` build it (src/dstat.c
lines 450-460): every cell followed by a comma, then the literal
backspace-space-newline bytes appended to visually cancel the trailing
comma on a terminal. -/
def commaRow (cells : List String) : String :=
  (cells.foldl (fun acc c => acc ++ (c ++ ",")) "") ++ "\x08 \n"

/-- Embeds `csvOutput` (src/dstat.c lines 434-469) as the text it emits.
When not quiet: a Director(y/ies) caption, the stored paths one per line,
and the header row of `STAT_CSV` names; in all cases the data row of the
nine counts. In the quiet case the C code formats into an uninitialised
malloc buffer; it is modelled as empty. -/
def csvOutput (o : Opts) (paths : List String) (numDirs : Int) (t : Tally) : String :=
  let pre :=
    if !o.qit then
      ("Director" ++ pl numDirs "" Action.rep ++ "\n")
        ++ (paths.foldl (fun acc p => acc ++ (p ++ "\n")) "")
        ++ commaRow STAT_CSV
    else ""
  pre ++ commaRow ((tallyValues t).map (fun v => toString v))

/-- One iteration of the argument loop of `main` (src/dstat.c lines
665-675): an argument equal to "." is replaced by the current working
directory, then handed to `addDir`. -/
def processArg (fs : FS) (o : Opts) (s : St) (arg : String) : Except (Nat × St) St :=
  let a := if arg = "." then s.cwd else arg
  addDir fs o s a

/-- The whole argument loop of `main`. -/
def processArgs (fs : FS) (o : Opts) : St → List String → Except (Nat × St) St
  | s, [] => Except.ok s
  | s, a :: as => do
      let s1 ← processArg fs o s a
      processArgs fs o s1 as

/-- Embeds the body of `main` after option parsing (src/dstat.c lines
656-700): run the argument loop (each iteration bumps `dir_cnt`); with no
arguments add the current working directory instead; check the two
count invariants (mismatch is fatal `EIO`, continuous mode with a single
`dir_cnt` is fatal `EINVAL`); scan the stored paths unless in continuous
mode; and render via `displayOutput`. -/
def mainBody (fs : FS) (o : Opts) (args : List String) (cwd0 : String) :
    Except (Nat × St) St := do
  let s0 := initSt cwd0
  let s1 ← processArgs fs o s0 args
  let r2 ←
    if args.length = 0 then do
      let s ← addDir fs o s1 s1.cwd
      pure (1, s)
    else
      pure (args.length, s1)
  let dir_cnt := r2.1
  let s2 := r2.2
  let s3 ←
    if s2.num_dir ≠ s2.num_dirs then
      logError o true "directory count mismatch" { s2 with errno := EIO }
    else if dir_cnt = 1 ∧ o.upd = true then
      logError o true "continuous update requires multiple directories" { s2 with errno := EINVAL }
    else
      Except.ok s2
  let s4 ← if !o.upd then getPaths fs o s3 else Except.ok s3
  displayOutput fs o s4

/-- A complete run: `main` finishes with `exit(errno)` (src/dstat.c line
700), so a run that never hit a fatal branch still exits with whatever
errno value is left over. The result is the exit status and the final
observable state. -/
def mainRun (fs : FS) (o : Opts) (args : List String) (cwd0 : String) : Nat × St :=
  match mainBody fs o args cwd0 with
  | Except.error r => r
  | Except.ok s => (s.errno, s)

/-! Concrete fixtures used by the evaluations below. -/

/-- A valid directory path used in concrete runs. -/
def dirV : String := "/v"

/-- A path that exists nowhere in the concrete filesystems below. -/
def badPath : String := "/bad"

/-- The root path, used as the initial working directory of concrete runs. -/
def rootDir : String := "/"

/-- A filesystem with a single directory `/v` whose `readdir` stream is the
self entry, the parent entry and three regular files, in that order. -/
def fsThree : FS :=
  { dirs := [dirV],
    listing := fun p =>
      if p = dirV then
        [{ name := ".", d_type := DT_DIR }, { name := "..", d_type := DT_DIR },
         { name := "f1", d_type := DT_REG }, { name := "f2", d_type := DT_REG },
         { name := "f3", d_type := DT_REG }]
      else [] }

/-- Options with only the log file configured. -/
def optLog : Opts := { log := true }

/-- All-default options: no flags set. -/
def optNoLog : Opts := {}

/-- Options with only quiet mode set. -/
def optQuiet : Opts := { qit := true }

/-! Supporting lemma: the classifier bumps exactly one counter per entry. -/

/-- Each classified entry raises the counter sum by exactly one, whatever
its type code: the switch of `getDirStats` has no fall-through and its
default case counts into `d_unk`. -/
theorem classifyEntry_sum (t : Tally) (d : Nat) :
    tallySum (classifyEntry t d) = tallySum t + 1 := by
  unfold classifyEntry tallySum
  repeat' split
  all_goals simp
  all_goals omega

/-- Scanning a stream of entries adds its length to the counter sum. -/
theorem scanEntries_sum (es : List Nat) (t : Tally) :
    tallySum (scanEntries es t) = tallySum t + es.length := by
  induction es generalizing t with
  | nil => simp [scanEntries]
  | cons d ds ih =>
      simp only [scanEntries, List.foldl_cons, List.length_cons] at *
      rw [ih, classifyEntry_sum]
      omega

/-- C1: the spec asks that the counter sum equal the number of entries
excluding the self and parent entries "." and "..". The code instead
discards exactly the first entry the listing yields, never comparing
names, so the parent entry ".." is tallied: on a directory whose listing
is self, parent and one regular file, the code tallies 2 entries (one
directory, one regular file) while only 1 entry is neither "." nor "..".
This evaluates `getDirStats` at that failing input. -/
theorem c1_parent_entry_tallied :
    runOk (getDirStats fsThree optNoLog (initSt rootDir) dirV) =
      some { initSt rootDir with tally := ({ d_dir := 1, d_reg := 3 } : Tally) } ∧
    tallySum ({ d_dir := 1, d_reg := 3 } : Tally) = 4 ∧
    ((fsThree.listing dirV).filter
      (fun e => !(e.name == ".") && !(e.name == ".."))).length = 3 := by
  decide

/-- Modelled from the spec: the stdout renderer selection exactly as claim
C2 words it. -/
def claimStdoutRenderer (continuous linear csvFlag outFile : Bool) : Renderer :=
  if continuous || (linear && !csvFlag) || (linear && csvFlag && outFile) then Renderer.Linear
  else if csvFlag && !linear && !outFile then Renderer.CSV
  else Renderer.Block

/-- Modelled from the spec: the file renderer selection exactly as claim
C2 words it — whenever an output file was requested it receives CSV if the
csv flag is set and Block otherwise. -/
def claimFileRenderer (csvFlag outFile : Bool) : Option Renderer :=
  if outFile then (if csvFlag then some Renderer.CSV else some Renderer.Block) else none

/-- C2: for every option combination, the stdout renderer choice of
`displayOutput` and its output-file renderer choice agree with the
selection rule stated in the claim. -/
theorem c2_displayOutput_routing (o : Opts) :
    stdoutChoice o = claimStdoutRenderer o.upd o.lin o.csv o.out ∧
    fileChoice o = claimFileRenderer o.csv o.out := by
  obtain ⟨u, l, c, q, ot, lg⟩ := o
  cases u <;> cases l <;> cases c <;> cases ot <;> exact ⟨rfl, rfl⟩

/-- C3: the two-directory scenario, one valid directory of three regular
files and one nonexistent path. With a log file configured the run logs
exactly one line naming the nonexistent path and continues — but the
leftover errno makes the final `exit(errno)` return `ENOENT` (2), not 0,
and the tally also counts the parent entry ".." of the valid directory
(sum 4, not 3). Without a log file the run terminates at once with a
non-zero status, an untouched tally and no line logged. -/
theorem c3_error_logging_scenario :
    ((mainRun fsThree optLog [dirV, badPath] rootDir).1 = ENOENT ∧
     (mainRun fsThree optLog [dirV, badPath] rootDir).2.logLines =
       ["/bad: No such file or directory\n"] ∧
     (mainRun fsThree optLog [dirV, badPath] rootDir).2.tally =
       ({ d_dir := 1, d_reg := 3 } : Tally) ∧
     (mainRun fsThree optLog [dirV, badPath] rootDir).1 ≠ 0) ∧
    ((mainRun fsThree optNoLog [dirV, badPath] rootDir).1 = ENOENT ∧
     (mainRun fsThree optNoLog [dirV, badPath] rootDir).2.tally = ({} : Tally) ∧
     (mainRun fsThree optNoLog [dirV, badPath] rootDir).2.logLines = []) := by
  decide

/-- C5: the pluralisation rule of `pl`. A count of exactly 1 yields the
singular form — the empty suffix in add-s mode and "y" in replace mode —
and every other count, 0 included, yields the plural form — "s" in add-s
mode and "ies" in replace mode. -/
theorem c5_pl_pluralization (n : Int) (p : String) :
    pl n p Action.add = (if n = 1 then "" else "s") ∧
    pl n p Action.rep = (if n = 1 then "y" else "ies") := by
  unfold pl
  by_cases h : n = 1 <;> simp [h]

/-! Reduction lemmas for the Except monad used by the run model. -/

/-- Bind on a continuing computation applies the continuation. -/
theorem except_bind_ok {ε α β : Type} (a : α) (f : α → Except ε β) :
    (Except.ok a >>= f : Except ε β) = f a := rfl

/-- Bind on a terminated computation short-circuits. -/
theorem except_bind_error {ε α β : Type} (e : ε) (f : α → Except ε β) :
    (Except.error e >>= f : Except ε β) = Except.error e := rfl

/-- C4 counterexample: a non-fatal error with no log file configured does
terminate the process, but its single message is printed to standard
output, not to standard error, which stays empty. The claim says the
message is written to stderr. -/
theorem c4_fatal_message_on_stdout :
    runExit (logError optNoLog false badPath { initSt rootDir with errno := ENOENT }) =
      some (ENOENT,
        { initSt rootDir with errno := ENOENT,
                              stdoutLines := ["/bad: No such file or directory\n"] }) ∧
    (runExit (logError optNoLog false badPath { initSt rootDir with errno := ENOENT })).map
      (fun r => r.2.stderrLines) = some [] := by
  decide

/-- C4 amended: every error is funnelled through `logError`, which never
touches standard error. With a log file configured and the error
non-fatal, the single message line is appended to the log and execution
continues. With no log file configured the line is written to standard
output and the process exits with the adjusted errno. With a log file
configured and the error fatal, the line goes both to the log file and to
standard output — two copies of the one message — and the process
exits. -/
theorem c4_logError_discipline (o : Opts) (fatal : Bool) (msg : String) (s : St) :
    (o.log = true → fatal = false →
      logError o fatal msg s =
        Except.ok { s with errno := errAdj s.errno,
                           logLines := s.logLines ++ [errLine msg s.errno] }) ∧
    (o.log = false →
      logError o fatal msg s =
        Except.error (errAdj s.errno,
          { s with errno := errAdj s.errno,
                   stdoutLines := s.stdoutLines ++ [errLine msg s.errno] })) ∧
    (o.log = true → fatal = true →
      logError o fatal msg s =
        Except.error (errAdj s.errno,
          { s with errno := errAdj s.errno,
                   logLines := s.logLines ++ [errLine msg s.errno],
                   stdoutLines := s.stdoutLines ++ [errLine msg s.errno] })) := by
  refine ⟨fun hl hf => ?_, fun hl => ?_, fun hl hf => ?_⟩
  · simp [logError, hl, hf]
  · simp [logError, hl]
  · simp [logError, hl, hf]

/-- C4 witness: a concrete non-fatal logged call continues with the line
appended to the log. -/
theorem c4_logError_discipline_witness :
    logError optLog false badPath { initSt rootDir with errno := ENOENT } =
      Except.ok { initSt rootDir with errno := ENOENT,
                                      logLines := [errLine badPath ENOENT] } :=
  (c4_logError_discipline optLog false badPath
    { initSt rootDir with errno := ENOENT }).1 rfl rfl

/-! Fixtures for the registry-order claims. -/

/-- First directory of the two-directory fixture. -/
def dirA : String := "/a"

/-- Second directory of the two-directory fixture. -/
def dirB : String := "/b"

/-- A filesystem with two empty directories. -/
def fsTwo : FS := { dirs := [dirA, dirB], listing := fun _ => [] }

/-- C6 counterexample: supplying the two valid directories in the order
`/a`, `/b` leaves the stored list — the order in which `getDirList` and
every renderer traverse it — as `/b`, `/a`: the reverse of the
command-line order, because `addDir` pushes each new node at the head of
the linked list. -/
theorem c6_registry_order_reversed :
    runOk (processArgs fsTwo optNoLog (initSt rootDir) [dirA, dirB]) =
      some { initSt rootDir with head := [dirB, dirA], num_dirs := 2, num_dir := 2,
                                 fqdp := dirB } ∧
    [dirB, dirA] ≠ [dirA, dirB] := by
  decide

/-- C6 amended: the path registry is reverse-insertion-ordered. For every
sequence of valid absolute directory paths, the argument loop accepts
them all and stores them with the most recently supplied path first, so
every rendered directory list presents the paths in the reverse of the
command-line order; the count always equals the number of accepted
paths. -/
theorem c6_amended_registry_reverse_order (fs : FS) (o : Opts) (ps : List String) (s : St)
    (h : ∀ p ∈ ps, isAbs p = true ∧ p ∈ fs.dirs) :
    ∃ s1, processArgs fs o s ps = Except.ok s1 ∧
      s1.head = ps.reverse ++ s.head ∧
      s1.num_dirs = s.num_dirs + ps.length := by
  induction ps generalizing s with
  | nil => exact ⟨s, rfl, by simp, by simp⟩
  | cons p ps ih =>
      have hp := h p (by simp)
      have hne : p ≠ "." := by
        intro e
        rw [e] at hp
        exact absurd hp.1 (by decide)
      have hstep : processArg fs o s p =
          Except.ok { s with fqdp := p, num_dir := s.num_dir + 1,
                             head := p :: s.head, num_dirs := s.num_dirs + 1 } := by
        simp [processArg, hne, addDir, testDir, resolve, hp.1, hp.2]
      obtain ⟨s2, hs2, hhead, hnum⟩ :=
        ih { s with fqdp := p, num_dir := s.num_dir + 1,
                    head := p :: s.head, num_dirs := s.num_dirs + 1 }
          (fun q hq => h q (by simp [hq]))
      refine ⟨s2, ?_, ?_, ?_⟩
      · simp [processArgs, hstep, except_bind_ok, hs2]
      · simp only [hhead, List.reverse_cons, List.append_assoc, List.cons_append,
          List.nil_append]
      · simp only [hnum, List.length_cons]
        omega

/-- C6 witness: the amended statement evaluated on the two-directory
fixture. -/
theorem c6_amended_registry_reverse_order_witness :
    ∃ s1, processArgs fsTwo optNoLog (initSt rootDir) [dirA, dirB] = Except.ok s1 ∧
      s1.head = [dirA, dirB].reverse ++ (initSt rootDir).head ∧
      s1.num_dirs = (initSt rootDir).num_dirs + [dirA, dirB].length :=
  c6_amended_registry_reverse_order fsTwo optNoLog [dirA, dirB] (initSt rootDir)
    (by
      intro p hp
      simp only [List.mem_cons, List.not_mem_nil, or_false] at hp
      rcases hp with rfl | rfl <;> exact ⟨by decide, by decide⟩)

/-! Spec-side row shapes for the CSV claim. -/

/-- Modelled from the spec: a row of cells joined comma-separated with no
trailing comma, the shape the claim asserts for the CSV header and data
rows. -/
def specCommaSep : List String → String
  | [] => ""
  | [x] => x
  | x :: xs => x ++ "," ++ specCommaSep xs

/-- Modelled from the spec: the directory list rendered one path per
line. -/
def specLines : List String → String
  | [] => ""
  | p :: ps => (p ++ "\n") ++ specLines ps

/-- Cells each followed by a comma, concatenated: the accumulator-free
shape of the `asprintf` append loops of `csvOutput`. -/
def rowCat : List String → String
  | [] => ""
  | c :: cs => (c ++ ",") ++ rowCat cs

/-- The line-append fold of `csvOutput` equals the accumulator followed by
the one-per-line rendering. -/
theorem foldl_append_lines (ps : List String) (acc : String) :
    ps.foldl (fun a p => a ++ (p ++ "\n")) acc = acc ++ specLines ps := by
  induction ps generalizing acc with
  | nil => simp [specLines]
  | cons p ps ih =>
      simp only [List.foldl_cons, specLines]
      rw [ih, String.append_assoc]

/-- The cell-append fold of `csvOutput` equals the accumulator followed by
the comma-terminated cell concatenation. -/
theorem foldl_append_cells (cs : List String) (acc : String) :
    cs.foldl (fun a c => a ++ (c ++ ",")) acc = acc ++ rowCat cs := by
  induction cs generalizing acc with
  | nil => simp [rowCat]
  | cons c cs ih =>
      simp only [List.foldl_cons, rowCat]
      rw [ih, String.append_assoc]

/-- On a nonempty list, the comma-terminated concatenation is the
comma-separated rendering followed by one extra trailing comma. -/
theorem rowCat_eq_specCommaSep (x : String) (xs : List String) :
    rowCat (x :: xs) = specCommaSep (x :: xs) ++ "," := by
  induction xs generalizing x with
  | nil => simp [rowCat, specCommaSep]
  | cons y ys ih =>
      have h1 : rowCat (x :: y :: ys) = (x ++ ",") ++ rowCat (y :: ys) := rfl
      have h2 : specCommaSep (x :: y :: ys) = (x ++ ",") ++ specCommaSep (y :: ys) := rfl
      rw [h1, ih y, h2]
      simp [String.append_assoc]

/-- A `csvOutput` row on a nonempty cell list: comma-separated cells, a
trailing comma, then the backspace-space-newline bytes. -/
theorem commaRow_eq (x : String) (xs : List String) :
    commaRow (x :: xs) = (specCommaSep (x :: xs) ++ ",") ++ "\x08 \n" := by
  unfold commaRow
  rw [foldl_append_cells, String.empty_append, rowCat_eq_specCommaSep]

/-- C7 counterexample: the quiet-mode data row of `csvOutput` on the
all-zero tally. The emitted bytes keep the trailing comma and append a
backspace and a space after it; they are not the comma-separated counts
with the trailing comma stripped, as the claim asserts. -/
theorem c7_trailing_comma_retained :
    csvOutput optQuiet [] 0 {} = "0,0,0,0,0,0,0,0,0,\x08 \n" ∧
    csvOutput optQuiet [] 0 {} ≠
      specCommaSep ((tallyValues ({} : Tally)).map (fun v => toString v)) ++ "\n" := by
  decide

/-- C7 amended: the CSV renderer emits, when not quiet, a Director(y/ies)
caption, the directory list one path per line, and the header row of the
nine full category names comma-separated — with the trailing comma
retained in the byte stream and followed by a backspace and a space (which
erase it only on a terminal) and a newline; in all cases it emits the data
row of the nine counts in the same comma-terminated shape. -/
theorem c7_amended_csv_layout (o : Opts) (paths : List String) (n : Int) (t : Tally) :
    csvOutput o paths n t =
      (if o.qit then "" else
        ("Director" ++ pl n "" Action.rep ++ "\n")
          ++ specLines paths
          ++ ((specCommaSep STAT_CSV ++ ",") ++ "\x08 \n"))
      ++ ((specCommaSep ((tallyValues t).map (fun v => toString v)) ++ ",") ++ "\x08 \n") := by
  have hdata : commaRow ((tallyValues t).map (fun v => toString v)) =
      (specCommaSep ((tallyValues t).map (fun v => toString v)) ++ ",") ++ "\x08 \n" := by
    simp only [tallyValues, List.map]
    exact commaRow_eq _ _
  have hhdr : commaRow STAT_CSV = (specCommaSep STAT_CSV ++ ",") ++ "\x08 \n" := by
    decide
  by_cases hq : o.qit
  · simp [csvOutput, hq, hdata]
  · simp only [csvOutput, hq, Bool.not_false, if_pos, hdata, hhdr, foldl_append_lines,
      String.empty_append, if_neg, Bool.false_eq_true, not_false_eq_true, ite_true, ite_false]

/-! Continuous-mode usage check. -/

/-- Options with continuous mode and a log file configured. -/
def optUpdLog : Opts := { upd := true, log := true }

/-- Options with only continuous mode set. -/
def optUpd : Opts := { upd := true }

/-- C8 counterexample: continuous mode with two supplied arguments of
which one is rejected and logged. Exactly one directory results from
argument processing (`num_dirs` is 1), yet the run is not stopped by the
usage check — the check compares the raw argument count `dir_cnt`, which
is 2 — and the continuous branch then scans the single stored directory,
leaving a non-empty tally, before the process exits with the leftover
`ENOENT`, not `EINVAL`. -/
theorem c8_single_resulting_directory_not_rejected :
    (mainRun fsThree optUpdLog [dirV, badPath] rootDir).2.num_dirs = 1 ∧
    (mainRun fsThree optUpdLog [dirV, badPath] rootDir).1 = ENOENT ∧
    EINVAL ≠ ENOENT ∧
    (mainRun fsThree optUpdLog [dirV, badPath] rootDir).2.tally =
      ({ d_dir := 1, d_reg := 3 } : Tally) := by
  decide

/-- C8 amended: the usage check counts supplied command-line arguments,
not accepted directories. If continuous mode is requested and exactly one
directory argument was supplied and accepted — or none, in which case the
current working directory is substituted — the run fails with the
`UsageError` exit status `EINVAL` before any directory is scanned: the
tally is still zero at exit. -/
theorem c8_amended_usage_check_counts_arguments (fs : FS) (o : Opts) (cwd0 d : String)
    (hupd : o.upd = true) (hdot : d ≠ ".") (hd : resolve cwd0 d ∈ fs.dirs) :
    ((mainRun fs o [d] cwd0).1 = EINVAL ∧
     (mainRun fs o [d] cwd0).2.tally = ({} : Tally)) ∧
    ((cwd0 ∈ fs.dirs ∧ isAbs cwd0 = true) →
      (mainRun fs o [] cwd0).1 = EINVAL ∧
      (mainRun fs o [] cwd0).2.tally = ({} : Tally)) := by
  have hcwd : (initSt cwd0).cwd = cwd0 := rfl
  constructor
  · cases hA : isAbs d <;>
      simp [mainRun, mainBody, processArgs, processArg, addDir, testDir, hcwd, hdot,
        hd, hupd, hA, logError, errAdj, EINVAL, initSt, except_bind_ok,
        except_bind_error]
  · rintro ⟨hmem, habs⟩
    have hres : resolve cwd0 cwd0 = cwd0 := by simp [resolve, habs]
    simp [mainRun, mainBody, processArgs, processArg, addDir, testDir, hcwd, hres,
      hmem, habs, hupd, logError, errAdj, EINVAL, initSt, except_bind_ok,
      except_bind_error]

/-- C8 witness: the amended statement on a concrete run — one valid
absolute directory argument under continuous mode, and the zero-argument
substitution case. -/
theorem c8_amended_usage_check_counts_arguments_witness :
    ((mainRun fsTwo optUpd [dirB] dirA).1 = EINVAL ∧
     (mainRun fsTwo optUpd [dirB] dirA).2.tally = ({} : Tally)) ∧
    ((dirA ∈ fsTwo.dirs ∧ isAbs dirA = true) →
      (mainRun fsTwo optUpd [] dirA).1 = EINVAL ∧
      (mainRun fsTwo optUpd [] dirA).2.tally = ({} : Tally)) :=
  c8_amended_usage_check_counts_arguments fsTwo optUpd dirA dirB rfl
    (by decide) (by decide)

/-- C9: a run with no directory arguments is the very same run as one
whose single argument is the current working directory: the zero-argument
branch of `main` feeds `getcwd` to `addDir`, and the argument loop feeds
the identical string, so registry, tallies, exit status and every other
observable agree. -/
theorem c9_zero_args_same_as_cwd_argument (fs : FS) (o : Opts) (cwd0 : String) :
    mainRun fs o [] cwd0 = mainRun fs o [cwd0] cwd0 := by
  have hcwd : (initSt cwd0).cwd = cwd0 := rfl
  have hsub : (if cwd0 = "." then (initSt cwd0).cwd else cwd0) = cwd0 := by
    rw [hcwd, ite_self]
  unfold mainRun mainBody
  simp only [processArgs, processArg, hsub, hcwd, except_bind_ok, List.length_nil,
    List.length_cons, List.length_nil]
  cases hx : addDir fs o (initSt cwd0) cwd0 with
  | error e => simp [hx, except_bind_error]
  | ok s => simp [hx, except_bind_ok]

/-- C10: validating a relative path chdirs into it and the change
persists, so with two relative arguments the second is resolved against
the directory the first validation moved into, not against the original
working directory: after processing the registry holds the chained
resolutions and the working directory has moved twice. -/
theorem c10_relative_validation_moves_cwd (fs : FS) (o : Opts) (cwd0 d1 d2 : String)
    (h1a : isAbs d1 = false) (h2a : isAbs d2 = false)
    (h1dot : d1 ≠ ".") (h2dot : d2 ≠ ".")
    (h1 : resolve cwd0 d1 ∈ fs.dirs)
    (h2 : resolve (resolve cwd0 d1) d2 ∈ fs.dirs) :
    (∃ s1, processArgs fs o (initSt cwd0) [d1] = Except.ok s1 ∧
       s1.cwd = resolve cwd0 d1) ∧
    (∃ s2, processArgs fs o (initSt cwd0) [d1, d2] = Except.ok s2 ∧
       s2.cwd = resolve (resolve cwd0 d1) d2 ∧
       s2.head = [resolve (resolve cwd0 d1) d2, resolve cwd0 d1]) := by
  have hcwd : (initSt cwd0).cwd = cwd0 := rfl
  have step1 : processArg fs o (initSt cwd0) d1 =
      Except.ok { initSt cwd0 with cwd := resolve cwd0 d1, fqdp := resolve cwd0 d1,
                                   num_dir := 1, head := [resolve cwd0 d1],
                                   num_dirs := 1 } := by
    simp [processArg, h1dot, addDir, testDir, hcwd, h1a, h1, initSt]
  have step2 : processArg fs o
      ({ initSt cwd0 with cwd := resolve cwd0 d1, fqdp := resolve cwd0 d1,
                          num_dir := 1, head := [resolve cwd0 d1],
                          num_dirs := 1 }) d2 =
      Except.ok { initSt cwd0 with cwd := resolve (resolve cwd0 d1) d2,
                                   fqdp := resolve (resolve cwd0 d1) d2,
                                   num_dir := 2,
                                   head := [resolve (resolve cwd0 d1) d2, resolve cwd0 d1],
                                   num_dirs := 2 } := by
    simp [processArg, h2dot, addDir, testDir, h2a, h2, initSt]
  constructor
  · refine ⟨{ initSt cwd0 with cwd := resolve cwd0 d1,
                               fqdp := resolve cwd0 d1,
                               num_dir := 1,
                               head := [resolve cwd0 d1],
                               num_dirs := 1 }, ?_, rfl⟩
    simp [processArgs, step1, except_bind_ok]
  · refine ⟨{ initSt cwd0 with cwd := resolve (resolve cwd0 d1) d2,
                               fqdp := resolve (resolve cwd0 d1) d2,
                               num_dir := 2,
                               head := [resolve (resolve cwd0 d1) d2, resolve cwd0 d1],
                               num_dirs := 2 }, ?_, rfl, rfl⟩
    simp [processArgs, step1, step2, except_bind_ok]

/-! Fixture for the relative-path claim. -/

/-- Base working directory of the relative-path fixture. -/
def rootR : String := "/r"

/-- First relative argument. -/
def relA : String := "a"

/-- Second relative argument. -/
def relB : String := "b"

/-- A filesystem holding `/r/a` and `/r/a/b` as directories. -/
def fsRel : FS :=
  { dirs := [rootR ++ "/" ++ relA, rootR ++ "/" ++ relA ++ "/" ++ relB],
    listing := fun _ => [] }

/-- C10 witness: the chained-resolution statement on the concrete
relative-path fixture. -/
theorem c10_relative_validation_moves_cwd_witness :
    (∃ s1, processArgs fsRel optNoLog (initSt rootR) [relA] = Except.ok s1 ∧
       s1.cwd = resolve rootR relA) ∧
    (∃ s2, processArgs fsRel optNoLog (initSt rootR) [relA, relB] = Except.ok s2 ∧
       s2.cwd = resolve (resolve rootR relA) relB ∧
       s2.head = [resolve (resolve rootR relA) relB, resolve rootR relA]) :=
  c10_relative_validation_moves_cwd fsRel optNoLog rootR relA relB
    (by decide) (by decide) (by decide) (by decide) (by decide) (by decide)

end DStat
